import Mathlib

/-
  Verification of the paper-doll ragdoll boundary system (src/script.js).

  The embedding models the boundary-activation state machine and the
  soft-repositioning controller: the global state (viewport size, gravity,
  boundary colliders, the `boundsActivated` and `gravityDisabledOnGround`
  flags, and the list of ragdoll bodies), the `createBounds` rebuild, the
  `collisionStart` landing handler, the `beforeUpdate` repositioning pass
  and the window-resize listener.  Numbers are modelled as rationals.
-/

namespace PaperDoll

/- Batteries seals the rational-number operations; reopening them lets
`decide` evaluate the model on concrete inputs. -/
attribute [local semireducible] Rat.mul Rat.inv Rat.add Rat.sub Rat.ofScientific

/-- RESTORE_FORCE_BASE = 0.0002 (script.js line 314). -/
def RESTORE_FORCE_BASE : ℚ := 2 / 10000

/-- RESTORE_VELOCITY_DAMP = 0.6 (script.js line 315). -/
def RESTORE_VELOCITY_DAMP : ℚ := 6 / 10

/-- EDGE_MARGIN = 6 (script.js line 316). -/
def EDGE_MARGIN : ℚ := 6

/-- thickness = 100 inside createBounds (script.js line 79). -/
def WALL_THICKNESS : ℚ := 100

/-- A 2D vector (Matter.js `{x, y}` records). -/
structure Vec where
  x : ℚ
  y : ℚ
deriving DecidableEq

/-- A dynamic rigid body as the handlers see it: position, velocity,
angular velocity, mass, the per-step force/torque accumulators written by
`Body.applyForce`, the static flag, and whether this body is (reference-equal
to) the current bottom boundary collider `bounds.bottom`. -/
structure RBody where
  position : Vec
  velocity : Vec
  angularVelocity : ℚ
  mass : ℚ
  force : Vec
  torque : ℚ
  isStatic : Bool
  isBottomWall : Bool
deriving DecidableEq

/-- A static boundary collider created by `Bodies.rectangle(x, y, w, h,
{isStatic: true})`: centre position, extents, static flag. -/
structure Collider where
  x : ℚ
  y : ℚ
  width : ℚ
  height : ℚ
  isStatic : Bool
deriving DecidableEq

/-- The `bounds` record of script.js (line 66): four optional collider slots. -/
structure BoundsState where
  top : Option Collider
  bottom : Option Collider
  left : Option Collider
  right : Option Collider
deriving DecidableEq

/-- The `world.gravity` record: vector (x, y) and scale. -/
structure GravityState where
  gx : ℚ
  gy : ℚ
  scale : ℚ
deriving DecidableEq

/-- The geometry part of `createBounds(full)` (script.js lines 76-101):
always a bottom wall; top/left/right walls exactly when `full`. -/
def mkBounds (full : Bool) (w h : ℚ) : BoundsState :=
  let t := WALL_THICKNESS
  let bottomWall : Collider := ⟨w / 2, h + t / 2, w + t * 2, t, true⟩
  if full then
    { top := some ⟨w / 2, -(t / 2), w + t * 2, t, true⟩
      bottom := some bottomWall
      left := some ⟨-(t / 2), h / 2, t, h + t * 2, true⟩
      right := some ⟨w + t / 2, h / 2, t, h + t * 2, true⟩ }
  else
    { top := none, bottom := some bottomWall, left := none, right := none }

/-- The module-level mutable state of script.js: canvas size, world gravity,
the `bounds` record, the two flags and the dynamic bodies of the world
(the ragdoll parts; the boundary colliders are kept in `bounds`). -/
structure SysState where
  width : ℚ
  height : ℚ
  gravity : GravityState
  bounds : BoundsState
  boundsActivated : Bool
  gravityDisabledOnGround : Bool
  parts : List RBody
deriving DecidableEq

/-- `createBounds(full)` (script.js lines 76-101): removes the old colliders,
rebuilds geometry from the current canvas size, and records the new mode in
`boundsActivated`. -/
def createBounds (s : SysState) (full : Bool) : SysState :=
  { s with bounds := mkBounds full s.width s.height, boundsActivated := full }

/-- The initial module state: gravity (0, 1) with scale 0.001 (lines 17-19),
flags false (lines 74, 265), followed by the initial `createBounds(false)`
call (line 104). -/
def initState (w h : ℚ) (parts : List RBody) : SysState :=
  createBounds
    { width := w, height := h, gravity := ⟨0, 1, 1 / 1000⟩
      bounds := ⟨none, none, none, none⟩, boundsActivated := false
      gravityDisabledOnGround := false, parts := parts } false

/-- The body of the velocity-zeroing loop (script.js lines 290-295):
non-static bodies get velocity (0,0) and angular velocity 0. -/
def zeroIfDynamic (b : RBody) : RBody :=
  if b.isStatic then b
  else { b with velocity := ⟨0, 0⟩, angularVelocity := 0 }

/-- The landing transition taken inside the collision handler when a dynamic
body touches the bottom wall (script.js lines 278-300): if gravity has not
yet been disabled, zero the gravity vector and scale, set the latch, zero
all dynamic bodies' velocities; then `createBounds(true)`. -/
def landTransition (s : SysState) : SysState :=
  let s1 :=
    if !s.gravityDisabledOnGround then
      { s with gravity := ⟨0, 0, 0⟩, gravityDisabledOnGround := true
               parts := s.parts.map zeroIfDynamic }
    else s
  createBounds s1 true

/-- Whether one member of a collision pair is the bottom wall collider
(script.js line 275). -/
def isBottomPair (p : RBody × RBody) : Bool :=
  p.1.isBottomWall || p.2.isBottomWall

/-- The non-bottom member of a pair (script.js line 276). -/
def otherOf (p : RBody × RBody) : RBody :=
  if p.1.isBottomWall then p.2 else p.1

/-- A pair that triggers the landing transition: one member is the bottom
wall and the other is non-static (script.js lines 275-277). -/
def isLandingPair (p : RBody × RBody) : Bool :=
  isBottomPair p && !(otherOf p).isStatic

/-- Whether a collision event (its list of pairs) contains a landing pair. -/
def hasLanding (ev : List (RBody × RBody)) : Bool :=
  ev.any isLandingPair

/-- The `for (let pair of event.pairs)` loop of the collision handler
(script.js lines 273-304): skip pairs not involving the bottom wall and
pairs whose other member is static; on the first landing pair perform the
landing transition and `break`. -/
def processPairs : SysState → List (RBody × RBody) → SysState
  | s, [] => s
  | s, p :: rest =>
    if isBottomPair p then
      if !(otherOf p).isStatic then landTransition s
      else processPairs s rest
    else processPairs s rest

/-- The `collisionStart` handler (script.js lines 269-305), including the
early return when full bounds are active and gravity already disabled. -/
def onCollisionStart (s : SysState) (pairs : List (RBody × RBody)) : SysState :=
  if s.boundsActivated && s.gravityDisabledOnGround then s
  else processPairs s pairs

/-- Fold a sequence of collision events through the handler. -/
def runEvents (s : SysState) (evs : List (List (RBody × RBody))) : SysState :=
  evs.foldl onCollisionStart s

/-- Matter.js `Body.applyForce(body, position, force)`: adds the force to the
body's force accumulator and adds the moment of the force about the body's
centre to the torque accumulator. -/
def applyForceAt (b : RBody) (p : Vec) (f : Vec) : RBody :=
  { b with force := ⟨b.force.x + f.x, b.force.y + f.y⟩
           torque := b.torque +
             ((p.x - b.position.x) * f.y - (p.y - b.position.y) * f.x) }

/-- Matter.js `Body.setVelocity`. -/
def setVelocity (b : RBody) (v : Vec) : RBody :=
  { b with velocity := v }

/-- The accumulated x-component of the restoring force for one body
(script.js lines 330-342): left and right margin contributions. -/
def restoreForceX (w : ℚ) (b : RBody) : ℚ :=
  (if b.position.x < EDGE_MARGIN then
    RESTORE_FORCE_BASE * (EDGE_MARGIN - b.position.x) else 0)
  + (if b.position.x > w - EDGE_MARGIN then
    RESTORE_FORCE_BASE * ((w - EDGE_MARGIN) - b.position.x) else 0)

/-- The accumulated y-component of the restoring force for one body
(script.js lines 344-356): top and bottom margin contributions. -/
def restoreForceY (h : ℚ) (b : RBody) : ℚ :=
  (if b.position.y < EDGE_MARGIN then
    RESTORE_FORCE_BASE * (EDGE_MARGIN - b.position.y) else 0)
  + (if b.position.y > h - EDGE_MARGIN then
    RESTORE_FORCE_BASE * ((h - EDGE_MARGIN) - b.position.y) else 0)

/-- The `outside` flag: set when any of the four margin checks fires
(script.js lines 331, 338, 345, 352). -/
def isOutside (w h : ℚ) (b : RBody) : Bool :=
  decide (b.position.x < EDGE_MARGIN) || decide (b.position.x > w - EDGE_MARGIN)
  || decide (b.position.y < EDGE_MARGIN) || decide (b.position.y > h - EDGE_MARGIN)

/-- The mass read with JavaScript falsy-coalescing: `(b.mass || 1)`
(script.js line 361). -/
def massOr1 (m : ℚ) : ℚ :=
  if m = 0 then 1 else m

/-- The `Body.applyForce(b, b.position, {x: force.x * mass, ...})` call of
the repositioning pass (script.js lines 361-362). -/
def applyRestore (w h : ℚ) (b : RBody) : RBody :=
  applyForceAt b b.position
    ⟨restoreForceX w b * massOr1 b.mass, restoreForceY h b * massOr1 b.mass⟩

/-- The velocity damping of the repositioning pass (script.js line 365). -/
def dampVelocity (b : RBody) : RBody :=
  setVelocity b
    ⟨b.velocity.x * RESTORE_VELOCITY_DAMP, b.velocity.y * RESTORE_VELOCITY_DAMP⟩

/-- One body's treatment by the repositioning pass (script.js lines 324-370),
fault-free: static bodies are skipped; bodies outside a margin receive the
mass-scaled restoring force at their position and have velocity damped. -/
def repositionPart (w h : ℚ) (b : RBody) : RBody :=
  if b.isStatic then b
  else if isOutside w h b then dampVelocity (applyRestore w h b) else b

/-- One body's treatment with the `try { applyForce; setVelocity } catch`
block made explicit (script.js lines 358-369): `f1` says the engine's
applyForce call throws (body untouched), `f2` says setVelocity throws after
a successful applyForce; either way the exception is swallowed. -/
def repositionPartFaulty (f1 f2 : Bool) (w h : ℚ) (b : RBody) : RBody :=
  if b.isStatic then b
  else if isOutside w h b then
    if f1 then b
    else if f2 then applyRestore w h b
    else dampVelocity (applyRestore w h b)
  else b

/-- The `for (const b of ragdollParts)` loop with per-part fault oracles
indexed by list position: a caught fault leaves that part (partially)
unprocessed and the loop continues with the rest. -/
def repositionPassFaulty (f1 f2 : ℕ → Bool) (w h : ℚ) : ℕ → List RBody → List RBody
  | _, [] => []
  | i, b :: rest =>
    repositionPartFaulty (f1 i) (f2 i) w h b ::
      repositionPassFaulty f1 f2 w h (i + 1) rest

/-- The `beforeUpdate` handler (script.js lines 318-371): a no-op until
full bounds are active, otherwise the fault-free repositioning pass over
all ragdoll parts. -/
def onBeforeUpdate (s : SysState) : SysState :=
  if !s.boundsActivated then s
  else { s with parts := s.parts.map (repositionPart s.width s.height) }

/-- The window-resize listener (script.js lines 374-383): store the new
canvas size, then `createBounds(boundsActivated)`. -/
def onResize (s : SysState) (w h : ℚ) : SysState :=
  createBounds { s with width := w, height := h } s.boundsActivated

/-- The bottom boundary collider as a collision-pair member: static and
tagged as the bottom wall. -/
def bottomWallBody : RBody :=
  ⟨⟨400, 650⟩, ⟨0, 0⟩, 0, 0, ⟨0, 0⟩, 0, true, true⟩

/-- A sample falling ragdoll part used in witnesses. -/
def fallingPart : RBody :=
  ⟨⟨400, 590⟩, ⟨0, 3⟩, 1, 2, ⟨0, 0⟩, 0, false, false⟩

section Lemmas

lemma processPairs_of_not_landing (s : SysState) :
    ∀ ev : List (RBody × RBody), hasLanding ev = false → processPairs s ev = s := by
  intro ev
  induction ev with
  | nil => intro _; rfl
  | cons p rest ih =>
    intro h
    simp only [hasLanding, List.any_cons, Bool.or_eq_false_iff] at h
    obtain ⟨hp, hrest⟩ := h
    cases hb : isBottomPair p with
    | false => simp [processPairs, hb, ih hrest]
    | true =>
      have hst : (!(otherOf p).isStatic) = false := by
        simp only [isLandingPair, hb, Bool.true_and] at hp
        exact hp
      simp [processPairs, hb, hst, ih hrest]

lemma processPairs_of_landing (s : SysState) :
    ∀ ev : List (RBody × RBody), hasLanding ev = true →
      processPairs s ev = landTransition s := by
  intro ev
  induction ev with
  | nil => intro h; simp [hasLanding] at h
  | cons p rest ih =>
    intro h
    cases hp : isLandingPair p with
    | true =>
      have hb : isBottomPair p = true := by
        simp only [isLandingPair, Bool.and_eq_true] at hp
        exact hp.1
      have hst : (!(otherOf p).isStatic) = true := by
        simp only [isLandingPair, Bool.and_eq_true] at hp
        exact hp.2
      simp [processPairs, hb, hst]
    | false =>
      have hrest : hasLanding rest = true := by
        simp only [hasLanding, List.any_cons, hp, Bool.false_or] at h
        exact h
      cases hb : isBottomPair p with
      | false => simp [processPairs, hb, ih hrest]
      | true =>
        have hst : (!(otherOf p).isStatic) = false := by
          simp only [isLandingPair, hb, Bool.true_and] at hp
          exact hp
        simp [processPairs, hb, hst, ih hrest]

lemma onCollisionStart_of_not_landing (s : SysState) (ev : List (RBody × RBody))
    (h : hasLanding ev = false) : onCollisionStart s ev = s := by
  unfold onCollisionStart
  cases hg : (s.boundsActivated && s.gravityDisabledOnGround) with
  | true => simp
  | false => simp [processPairs_of_not_landing s ev h]

lemma onCollisionStart_landed (s : SysState) (ev : List (RBody × RBody))
    (h1 : s.boundsActivated = true) (h2 : s.gravityDisabledOnGround = true) :
    onCollisionStart s ev = s := by
  simp [onCollisionStart, h1, h2]

lemma runEvents_of_not_landing (s : SysState) :
    ∀ evs : List (List (RBody × RBody)), (∀ ev ∈ evs, hasLanding ev = false) →
      runEvents s evs = s := by
  intro evs
  induction evs with
  | nil => intro _; rfl
  | cons e rest ih =>
    intro h
    have he : hasLanding e = false := h e (List.mem_cons_self e rest)
    have hrest : ∀ ev ∈ rest, hasLanding ev = false :=
      fun ev hev => h ev (List.mem_cons_of_mem e hev)
    show runEvents (onCollisionStart s e) rest = s
    rw [onCollisionStart_of_not_landing s e he]
    exact ih hrest

lemma runEvents_landed (s : SysState) (h1 : s.boundsActivated = true)
    (h2 : s.gravityDisabledOnGround = true) :
    ∀ evs : List (List (RBody × RBody)), runEvents s evs = s := by
  intro evs
  induction evs with
  | nil => rfl
  | cons e rest ih =>
    show runEvents (onCollisionStart s e) rest = s
    rw [onCollisionStart_landed s e h1 h2]
    exact ih

lemma runEvents_append (s : SysState) (l1 l2 : List (List (RBody × RBody))) :
    runEvents s (l1 ++ l2) = runEvents (runEvents s l1) l2 := by
  unfold runEvents
  exact List.foldl_append _ _ _ _

lemma landTransition_eq (s : SysState) (h : s.gravityDisabledOnGround = false) :
    landTransition s =
      { width := s.width, height := s.height, gravity := ⟨0, 0, 0⟩
        bounds := mkBounds true s.width s.height, boundsActivated := true
        gravityDisabledOnGround := true, parts := s.parts.map zeroIfDynamic } := by
  simp [landTransition, createBounds, h]

lemma onCollisionStart_of_landing (s : SysState) (ev : List (RBody × RBody))
    (h1 : s.gravityDisabledOnGround = false) (h2 : hasLanding ev = true) :
    onCollisionStart s ev = landTransition s := by
  unfold onCollisionStart
  simp [h1, processPairs_of_landing s ev h2]

end Lemmas

/-- C1: starting from the initial state, after any run of collision events
containing no landing pair the state is unchanged (gravity still enabled,
bounds still only the bottom wall); the first event containing a pair of the
bottom wall with a non-static body zeroes the gravity vector and scale and
switches to full bounds; and every later collision event leaves the whole
state exactly as it was right after that first landing event. -/
theorem landing_transition_fires_once (w h : ℚ) (ps : List RBody)
    (pre : List (List (RBody × RBody))) (e : List (RBody × RBody))
    (rest : List (List (RBody × RBody)))
    (hpre : ∀ ev ∈ pre, hasLanding ev = false) (he : hasLanding e = true) :
    runEvents (initState w h ps) pre = initState w h ps ∧
    (runEvents (initState w h ps) (pre ++ [e])).gravity = ⟨0, 0, 0⟩ ∧
    (runEvents (initState w h ps) (pre ++ [e])).boundsActivated = true ∧
    runEvents (initState w h ps) (pre ++ e :: rest) =
      runEvents (initState w h ps) (pre ++ [e]) := by
  have h0 : (initState w h ps).gravityDisabledOnGround = false := rfl
  have hA : runEvents (initState w h ps) pre = initState w h ps :=
    runEvents_of_not_landing _ pre hpre
  have hB : runEvents (initState w h ps) (pre ++ [e]) =
      landTransition (initState w h ps) := by
    rw [runEvents_append, hA]
    exact onCollisionStart_of_landing _ e h0 he
  have hEq := landTransition_eq (initState w h ps) h0
  refine ⟨hA, ?_, ?_, ?_⟩
  · rw [hB, hEq]
  · rw [hB, hEq]
  · have hsplit : pre ++ e :: rest = (pre ++ [e]) ++ rest := by simp
    rw [hsplit, runEvents_append, hB, hEq]
    refine runEvents_landed _ ?_ ?_ rest <;> rfl

/-- Witness for C1 at a concrete session: no events before the landing event,
one landing event, then one further landing event that changes nothing. -/
theorem landing_transition_fires_once_witness :
    (∀ ev ∈ ([] : List (List (RBody × RBody))), hasLanding ev = false) ∧
    hasLanding [(bottomWallBody, fallingPart)] = true ∧
    (runEvents (initState 800 600 [fallingPart]) [] = initState 800 600 [fallingPart] ∧
     (runEvents (initState 800 600 [fallingPart])
        ([] ++ [[(bottomWallBody, fallingPart)]])).gravity = ⟨0, 0, 0⟩ ∧
     (runEvents (initState 800 600 [fallingPart])
        ([] ++ [[(bottomWallBody, fallingPart)]])).boundsActivated = true ∧
     runEvents (initState 800 600 [fallingPart])
        ([] ++ [(bottomWallBody, fallingPart)] :: [[(bottomWallBody, fallingPart)]]) =
       runEvents (initState 800 600 [fallingPart]) ([] ++ [[(bottomWallBody, fallingPart)]])) :=
  ⟨by simp, by decide,
   landing_transition_fires_once 800 600 [fallingPart] []
     [(bottomWallBody, fallingPart)] [[(bottomWallBody, fallingPart)]]
     (by simp) (by decide)⟩

/-- C2: if gravity has not yet been disabled and a collision event contains a
landing pair, then after the handler runs every non-static ragdoll part has
velocity (0, 0) and angular velocity 0. -/
theorem landing_zeroes_all_velocities (s : SysState) (ev : List (RBody × RBody))
    (h1 : s.gravityDisabledOnGround = false) (h2 : hasLanding ev = true) :
    ∀ b ∈ (onCollisionStart s ev).parts, b.isStatic = false →
      b.velocity = ⟨0, 0⟩ ∧ b.angularVelocity = 0 := by
  rw [onCollisionStart_of_landing s ev h1 h2, landTransition_eq s h1]
  intro b hb hstat
  simp only [List.mem_map] at hb
  obtain ⟨a, _, rfl⟩ := hb
  cases ha : a.isStatic with
  | true => simp [zeroIfDynamic, ha] at hstat
  | false => simp [zeroIfDynamic, ha]

/-- Witness for C2 on a concrete pre-landing state and landing event. -/
theorem landing_zeroes_all_velocities_witness :
    (initState 800 600 [fallingPart]).gravityDisabledOnGround = false ∧
    hasLanding [(bottomWallBody, fallingPart)] = true ∧
    (∀ b ∈ (onCollisionStart (initState 800 600 [fallingPart])
        [(bottomWallBody, fallingPart)]).parts, b.isStatic = false →
      b.velocity = ⟨0, 0⟩ ∧ b.angularVelocity = 0) :=
  ⟨rfl, by decide,
   landing_zeroes_all_velocities (initState 800 600 [fallingPart])
     [(bottomWallBody, fallingPart)] rfl (by decide)⟩

/-- C3: while full bounds are not active (boundary mode partial, before the
landing transition), the beforeUpdate repositioning pass is a no-op: the whole
state, in particular every part's position, velocity and force accumulator,
is unchanged. -/
theorem reposition_noop_before_landing (s : SysState)
    (h : s.boundsActivated = false) : onBeforeUpdate s = s := by
  simp [onBeforeUpdate, h]

/-- Witness for C3 at the concrete initial state. -/
theorem reposition_noop_before_landing_witness :
    (initState 800 600 [fallingPart]).boundsActivated = false ∧
    onBeforeUpdate (initState 800 600 [fallingPart]) = initState 800 600 [fallingPart] :=
  ⟨rfl, reposition_noop_before_landing _ rfl⟩

/-- A part past the left margin of a degenerate 4-pixel-wide viewport:
the left and right margin contributions to the restoring force overlap. -/
def cornerSqueezedPart : RBody :=
  ⟨⟨3, 300⟩, ⟨0, 0⟩, 0, 1, ⟨0, 0⟩, 0, false, false⟩

/-- A part of positive mass past the left margin of a normal viewport. -/
def fallingPartLeft : RBody :=
  ⟨⟨2, 300⟩, ⟨4, -3⟩, 0, 2, ⟨0, 0⟩, 0, false, false⟩

/-- A part with mass 0 past the left margin. -/
def masslessPart : RBody :=
  ⟨⟨3, 300⟩, ⟨5, 7⟩, 0, 0, ⟨0, 0⟩, 0, false, false⟩

/-- A part inside all four margins of an 800 x 600 viewport. -/
def centeredPart : RBody :=
  ⟨⟨400, 300⟩, ⟨1, 2⟩, 0, 1, ⟨0, 0⟩, 0, false, false⟩

/-- C4 counterexample, two concrete failures of the claim as stated.
First: a non-static part of positive mass with x < EDGE_MARGIN in a viewport
of width 4 < 2 * EDGE_MARGIN — the right-margin check also fires, its negative
contribution dominates, and the applied x-force is strictly negative, not
strictly positive.  Second: a part whose mass reads 0 — the force actually
added is not RESTORE_FORCE_BASE * (EDGE_MARGIN - x) scaled by the part's
mass (which would be 0), because `b.mass || 1` substitutes 1. -/
theorem edge_restore_force_left_counterexample :
    (cornerSqueezedPart.position.x < EDGE_MARGIN ∧
     cornerSqueezedPart.isStatic = false ∧ 0 < cornerSqueezedPart.mass ∧
     (repositionPart 4 600 cornerSqueezedPart).force.x < cornerSqueezedPart.force.x) ∧
    (masslessPart.position.x < EDGE_MARGIN ∧ masslessPart.isStatic = false ∧
     (repositionPart 800 600 masslessPart).force.x ≠
       masslessPart.force.x +
         RESTORE_FORCE_BASE * (EDGE_MARGIN - masslessPart.position.x) * masslessPart.mass) := by
  decide

/-- C4 (amended): while the repositioning pass runs, a non-static part with
strictly positive mass and x < EDGE_MARGIN, in a viewport at least
2 * EDGE_MARGIN wide (so the right-margin check cannot also fire), has
RESTORE_FORCE_BASE * (EDGE_MARGIN - x) * mass added to its force accumulator,
a strictly positive x-contribution; the force moment at the part's own
position leaves its torque unchanged, and both velocity components are
multiplied by RESTORE_VELOCITY_DAMP. -/
theorem edge_restore_force_left (w h : ℚ) (b : RBody)
    (hs : b.isStatic = false) (hm : 0 < b.mass)
    (hx : b.position.x < EDGE_MARGIN) (hw : 2 * EDGE_MARGIN ≤ w) :
    (repositionPart w h b).force.x =
      b.force.x + RESTORE_FORCE_BASE * (EDGE_MARGIN - b.position.x) * b.mass ∧
    b.force.x < (repositionPart w h b).force.x ∧
    (repositionPart w h b).torque = b.torque ∧
    (repositionPart w h b).velocity =
      ⟨b.velocity.x * RESTORE_VELOCITY_DAMP, b.velocity.y * RESTORE_VELOCITY_DAMP⟩ := by
  have hnr : ¬ (b.position.x > w - EDGE_MARGIN) := by
    intro hcon
    linarith
  have houts : isOutside w h b = true := by
    simp [isOutside, hx]
  have hrx : restoreForceX w b = RESTORE_FORCE_BASE * (EDGE_MARGIN - b.position.x) := by
    simp [restoreForceX, if_pos hx, if_neg hnr]
  have hrep : repositionPart w h b = dampVelocity (applyRestore w h b) := by
    simp [repositionPart, hs, houts]
  have hmass : massOr1 b.mass = b.mass := by
    simp [massOr1, ne_of_gt hm]
  have hpos : 0 < RESTORE_FORCE_BASE * (EDGE_MARGIN - b.position.x) * b.mass := by
    have h1 : (0 : ℚ) < RESTORE_FORCE_BASE := by norm_num [RESTORE_FORCE_BASE]
    have h2 : (0 : ℚ) < EDGE_MARGIN - b.position.x := by linarith
    exact mul_pos (mul_pos h1 h2) hm
  refine ⟨?_, ?_, ?_, ?_⟩
  · simp [hrep, dampVelocity, setVelocity, applyRestore, applyForceAt, hrx, hmass]
  · have hfx : (repositionPart w h b).force.x =
        b.force.x + RESTORE_FORCE_BASE * (EDGE_MARGIN - b.position.x) * b.mass := by
      simp [hrep, dampVelocity, setVelocity, applyRestore, applyForceAt, hrx, hmass]
    rw [hfx]
    linarith
  · simp [hrep, dampVelocity, setVelocity, applyRestore, applyForceAt]
  · simp [hrep, dampVelocity, setVelocity, applyRestore, applyForceAt]

/-- Witness for the amended C4 at a concrete part past the left margin of an
800 x 600 viewport. -/
theorem edge_restore_force_left_witness :
    fallingPartLeft.isStatic = false ∧ 0 < fallingPartLeft.mass ∧
    fallingPartLeft.position.x < EDGE_MARGIN ∧ 2 * EDGE_MARGIN ≤ (800 : ℚ) ∧
    ((repositionPart 800 600 fallingPartLeft).force.x =
       fallingPartLeft.force.x +
         RESTORE_FORCE_BASE * (EDGE_MARGIN - fallingPartLeft.position.x) * fallingPartLeft.mass ∧
     fallingPartLeft.force.x < (repositionPart 800 600 fallingPartLeft).force.x ∧
     (repositionPart 800 600 fallingPartLeft).torque = fallingPartLeft.torque ∧
     (repositionPart 800 600 fallingPartLeft).velocity =
       ⟨fallingPartLeft.velocity.x * RESTORE_VELOCITY_DAMP,
        fallingPartLeft.velocity.y * RESTORE_VELOCITY_DAMP⟩) :=
  ⟨rfl, by decide, by decide, by decide,
   edge_restore_force_left 800 600 fallingPartLeft rfl (by decide) (by decide) (by decide)⟩

/-- C5: a part whose position satisfies EDGE_MARGIN ≤ x ≤ width - EDGE_MARGIN
and EDGE_MARGIN ≤ y ≤ height - EDGE_MARGIN is left completely unchanged by the
repositioning pass: no force, no velocity change. -/
theorem inside_margins_noop (w h : ℚ) (b : RBody)
    (h1 : EDGE_MARGIN ≤ b.position.x) (h2 : b.position.x ≤ w - EDGE_MARGIN)
    (h3 : EDGE_MARGIN ≤ b.position.y) (h4 : b.position.y ≤ h - EDGE_MARGIN) :
    repositionPart w h b = b := by
  have hA : ¬ (b.position.x < EDGE_MARGIN) := not_lt.mpr h1
  have hB : ¬ (w - EDGE_MARGIN < b.position.x) := not_lt.mpr h2
  have hC : ¬ (b.position.y < EDGE_MARGIN) := not_lt.mpr h3
  have hD : ¬ (h - EDGE_MARGIN < b.position.y) := not_lt.mpr h4
  simp [repositionPart, isOutside, hA, hB, hC, hD]

/-- Witness for C5 at a concrete part in the middle of an 800 x 600 viewport. -/
theorem inside_margins_noop_witness :
    EDGE_MARGIN ≤ centeredPart.position.x ∧ centeredPart.position.x ≤ 800 - EDGE_MARGIN ∧
    EDGE_MARGIN ≤ centeredPart.position.y ∧ centeredPart.position.y ≤ 600 - EDGE_MARGIN ∧
    repositionPart 800 600 centeredPart = centeredPart :=
  ⟨by decide, by decide, by decide, by decide,
   inside_margins_noop 800 600 centeredPart (by decide) (by decide) (by decide) (by decide)⟩

/-- C6: after any call to createBounds, the bottom collider is present, and
the top, left and right colliders are each present exactly when the call was
made with full = true — never partially active. -/
theorem createBounds_invariant (s : SysState) (full : Bool) :
    ((createBounds s full).bounds.bottom).isSome = true ∧
    (createBounds s full).bounds.top.isSome = full ∧
    (createBounds s full).bounds.left.isSome = full ∧
    (createBounds s full).bounds.right.isSome = full := by
  cases full <;> simp [createBounds, mkBounds]

/-- C7: invoking createBounds twice in a row with the same mode flag (and the
viewport unchanged in between, as createBounds does not touch it) gives the
very same state, so all colliders sit at identical positions with identical
dimensions both times. -/
theorem createBounds_idempotent (s : SysState) (full : Bool) :
    createBounds (createBounds s full) full = createBounds s full := rfl

/-- C8: the resize listener stores the new viewport size and rebuilds the
boundary colliders at the new dimensions for the currently recorded mode,
while mode flag, gravity, the one-shot landing latch and the part list are
all left unchanged. -/
theorem resize_rebuilds_preserving_mode (s : SysState) (w h : ℚ) :
    (onResize s w h).boundsActivated = s.boundsActivated ∧
    (onResize s w h).gravity = s.gravity ∧
    (onResize s w h).gravityDisabledOnGround = s.gravityDisabledOnGround ∧
    (onResize s w h).parts = s.parts ∧
    (onResize s w h).width = w ∧
    (onResize s w h).height = h ∧
    (onResize s w h).bounds = mkBounds s.boundsActivated w h :=
  ⟨rfl, rfl, rfl, rfl, rfl, rfl, rfl⟩

/-- C10: a non-static part whose mass reads as 0 (JavaScript falsy, so
`b.mass || 1` yields 1) and which sits past the left margin of a viewport at
least 2 * EDGE_MARGIN wide still has the unscaled restoring force
RESTORE_FORCE_BASE * (EDGE_MARGIN - x) added to its force accumulator — a
strictly positive, hence non-zero, applied force. -/
theorem massless_part_still_nudged (w h : ℚ) (b : RBody)
    (hs : b.isStatic = false) (hm : b.mass = 0)
    (hx : b.position.x < EDGE_MARGIN) (hw : 2 * EDGE_MARGIN ≤ w) :
    (repositionPart w h b).force.x =
      b.force.x + RESTORE_FORCE_BASE * (EDGE_MARGIN - b.position.x) ∧
    b.force.x < (repositionPart w h b).force.x := by
  have hnr : ¬ (b.position.x > w - EDGE_MARGIN) := by
    intro hcon
    linarith
  have houts : isOutside w h b = true := by
    simp [isOutside, hx]
  have hrx : restoreForceX w b = RESTORE_FORCE_BASE * (EDGE_MARGIN - b.position.x) := by
    simp [restoreForceX, if_pos hx, if_neg hnr]
  have hrep : repositionPart w h b = dampVelocity (applyRestore w h b) := by
    simp [repositionPart, hs, houts]
  have hmass : massOr1 b.mass = 1 := by
    simp [massOr1, hm]
  have hfx : (repositionPart w h b).force.x =
      b.force.x + RESTORE_FORCE_BASE * (EDGE_MARGIN - b.position.x) := by
    simp [hrep, dampVelocity, setVelocity, applyRestore, applyForceAt, hrx, hmass]
  refine ⟨hfx, ?_⟩
  rw [hfx]
  have h1 : (0 : ℚ) < RESTORE_FORCE_BASE := by norm_num [RESTORE_FORCE_BASE]
  have h2 : (0 : ℚ) < EDGE_MARGIN - b.position.x := by linarith
  nlinarith

section FaultLemmas

lemma repositionPartFaulty_false_false (w h : ℚ) (b : RBody) :
    repositionPartFaulty false false w h b = repositionPart w h b := by
  simp [repositionPartFaulty, repositionPart]

lemma repositionPassFaulty_getElem (f1 f2 : ℕ → Bool) (w h : ℚ) :
    ∀ (parts : List RBody) (k i : ℕ),
      (repositionPassFaulty f1 f2 w h k parts)[i]? =
        (parts[i]?).map (fun b => repositionPartFaulty (f1 (k + i)) (f2 (k + i)) w h b) := by
  intro parts
  induction parts with
  | nil => intro k i; simp [repositionPassFaulty]
  | cons b rest ih =>
    intro k i
    cases i with
    | zero => simp [repositionPassFaulty]
    | succ n =>
      have hidx : k + 1 + n = k + (n + 1) := by omega
      simp only [repositionPassFaulty, List.getElem?_cons_succ, ih (k + 1) n, hidx]

lemma repositionPassFaulty_length (f1 f2 : ℕ → Bool) (w h : ℚ) :
    ∀ (parts : List RBody) (k : ℕ),
      (repositionPassFaulty f1 f2 w h k parts).length = parts.length := by
  intro parts
  induction parts with
  | nil => intro k; rfl
  | cons b rest ih => intro k; simp [repositionPassFaulty, ih]

end FaultLemmas

/-- C9: when the per-part force/velocity mutators fault for (at most) the
part at one position j of the list, the pass still yields a list of the same
length in which every other position holds exactly the fault-free result for
its input part: one part's swallowed fault never stops the pass from
processing the remaining parts of that step. -/
theorem fault_isolated_per_part (f1 f2 : ℕ → Bool) (w h : ℚ)
    (parts : List RBody) (j : ℕ)
    (hf : ∀ i, i ≠ j → f1 i = false ∧ f2 i = false) :
    (repositionPassFaulty f1 f2 w h 0 parts).length = parts.length ∧
    ∀ i b, i ≠ j → parts[i]? = some b →
      (repositionPassFaulty f1 f2 w h 0 parts)[i]? = some (repositionPart w h b) := by
  refine ⟨repositionPassFaulty_length f1 f2 w h parts 0, ?_⟩
  intro i b hi hb
  rw [repositionPassFaulty_getElem f1 f2 w h parts 0 i, hb]
  obtain ⟨h1, h2⟩ := hf i hi
  simp [h1, h2, repositionPartFaulty_false_false]

/-- The fault oracle of the C9 witness: the applyForce call for the part at
position 1 throws; everything else succeeds. -/
def faultAtOne : ℕ → Bool := fun i => decide (i = 1)

/-- The always-successful fault oracle. -/
def noFault : ℕ → Bool := fun _ => false

/-- Witness for C9: with a fault at position 1 of a three-part list, the
pass keeps the length and processes positions 0 and 2 exactly as the
fault-free pass would. -/
theorem fault_isolated_per_part_witness :
    (∀ i, i ≠ 1 → faultAtOne i = false ∧ noFault i = false) ∧
    ((repositionPassFaulty faultAtOne noFault 800 600 0
        [masslessPart, cornerSqueezedPart, fallingPartLeft]).length =
      ([masslessPart, cornerSqueezedPart, fallingPartLeft] : List RBody).length ∧
     ∀ i b, i ≠ 1 →
       ([masslessPart, cornerSqueezedPart, fallingPartLeft] : List RBody)[i]? = some b →
       (repositionPassFaulty faultAtOne noFault 800 600 0
           [masslessPart, cornerSqueezedPart, fallingPartLeft])[i]? =
         some (repositionPart 800 600 b)) :=
  ⟨fun i hi => ⟨by simp [faultAtOne, hi], rfl⟩,
   fault_isolated_per_part faultAtOne noFault 800 600
     [masslessPart, cornerSqueezedPart, fallingPartLeft] 1
     (fun i hi => ⟨by simp [faultAtOne, hi], rfl⟩)⟩

/-- Witness for C10 at a concrete massless part past the left margin. -/
theorem massless_part_still_nudged_witness :
    masslessPart.isStatic = false ∧ masslessPart.mass = 0 ∧
    masslessPart.position.x < EDGE_MARGIN ∧ 2 * EDGE_MARGIN ≤ (800 : ℚ) ∧
    ((repositionPart 800 600 masslessPart).force.x =
       masslessPart.force.x + RESTORE_FORCE_BASE * (EDGE_MARGIN - masslessPart.position.x) ∧
     masslessPart.force.x < (repositionPart 800 600 masslessPart).force.x) :=
  ⟨rfl, rfl, by decide, by decide,
   massless_part_still_nudged 800 600 masslessPart rfl rfl (by decide) (by decide)⟩

end PaperDoll
